import Mathlib

/-!
Verification of the machine lifecycle orchestrator
(`src/libmachine/host/host.go`).

The file shallowly embeds the `host` package.  External collaborators
(the backend driver, the provisioner, the poll utility) are modelled as
oracles: a `Driver` record supplies, for each call the orchestrator can
make, the answer that call returns.  The result of the i-th `GetState`
call of a run is `getState i`, so a single `Driver` value describes one
arbitrary observable behaviour of the backend.  Execution threads a
world `W` holding the `Host` record (the Go methods receive `*Host` and
could mutate it, so it is part of the mutable world), the number of
`GetState` calls made so far, and a log of every outward call, in
order, which makes ordering and "action never invoked" claims precise.
-/

namespace host

/-- Lifecycle states of the external `state` package (`state.State`).
Modelled from the spec: the enumeration with members None, Running,
Paused, Saved, Stopped, Stopping, Starting, Error, Timeout. -/
inductive S where
  | None
  | Running
  | Paused
  | Saved
  | Stopped
  | Stopping
  | Starting
  | Error
  | Timeout
  deriving DecidableEq, Repr

/-- Modelled from the spec: `state.State.String()`, the printable name of a
lifecycle state. -/
def S.str : S → String
  | .None => "None"
  | .Running => "Running"
  | .Paused => "Paused"
  | .Saved => "Saved"
  | .Stopped => "Stopped"
  | .Stopping => "Stopping"
  | .Starting => "Starting"
  | .Error => "Error"
  | .Timeout => "Timeout"

/-- Modelled from the spec: package actions of the external `pkgaction`
package (`pkgaction.PkgAction`); `Upgrade` is the one the orchestrator
uses. -/
inductive PkgAction where
  | Install
  | Remove
  | Upgrade
  | Purge
  deriving DecidableEq, Repr

/-- Modelled from the spec: service actions of the external
`serviceaction` package; `Restart` is the one the orchestrator uses. -/
inductive SvcAction where
  | Restart
  | Start
  | Stop
  | Enable
  | Disable
  deriving DecidableEq, Repr

/-- Modelled from the spec: `auth.Options`, an opaque bundle of
credential/certificate configuration; its internal fields are never
inspected by the orchestrator, so it is kept abstract as a data blob. -/
structure AuthOpts where
  data : List String
  deriving DecidableEq, Repr

/-- Modelled from the spec: `engine.Options`, an opaque bundle of engine
configuration, kept abstract as a data blob. -/
structure EngineOpts where
  data : List String
  deriving DecidableEq, Repr

/-- Modelled from the spec: `swarm.Options`, an opaque bundle of
clustering configuration, kept abstract as a data blob. -/
structure SwarmOpts where
  data : List String
  deriving DecidableEq, Repr

/-- Modelled from the spec: the zero value `swarm.Options\x7b\x7d`, the empty
clustering options passed by `ConfigureAuth`. -/
def SwarmOpts.zero : SwarmOpts := ⟨[]⟩

/-- Errors.  Go errors are interface values; the orchestrator either
propagates an error produced by an external call verbatim (`backend`),
creates one itself via `errors.New` / `fmt.Errorf` (`mkError`), or
receives the poller's budget-exhausted error (`timeout`, modelled from
the spec's `Timeout` error kind). -/
inductive Err where
  | backend (e : String)
  | mkError (msg : String)
  | timeout
  deriving DecidableEq, Repr

/-- One outward call made by the orchestrator, with the arguments the
claims care about.  The run log is a list of these, in call order. -/
inductive Ev where
  | getState
  | start
  | stop
  | kill
  | detect
  | pkg (name : String) (a : PkgAction)
  | svc (name : String) (a : SvcAction)
  | provision (sw : SwarmOpts) (au : AuthOpts) (en : EngineOpts)
  | sshHostname
  | sshPort
  deriving DecidableEq, Repr

/-- The behaviour oracle for the external collaborators reached through
`h.Driver`: the backend driver itself, and the provisioner that
`provision.DetectProvisioner(h.Driver)` selects for it.  `getState i` is
the answer of the i-th `GetState` call of the run; each mechanical or
provisioner action is called at most once per operation, so a fixed
answer per action suffices. -/
structure Driver where
  getState : Nat → Except String S
  startR : Option String
  stopR : Option String
  killR : Option String
  sshHostname : Except String String
  sshPort : Except String Int
  sshUsername : String
  sshKeyPath : String
  detectR : Option String
  packageR : String → PkgAction → Option String
  serviceR : String → SvcAction → Option String
  provisionR : SwarmOpts → AuthOpts → EngineOpts → Option String

/-- `host.Options`. -/
structure Options where
  Driver : String
  Memory : Int
  Disk : Int
  EngineOptions : EngineOpts
  SwarmOptions : SwarmOpts
  AuthOptions : AuthOpts

/-- `host.Host`.  `RawDriver` (a `[]byte`) is modelled as a byte list. -/
structure Host where
  ConfigVersion : Int
  Driver : Driver
  DriverName : String
  HostOptions : Options
  Name : String
  RawDriver : List Nat

/-- The mutable world threaded through a run: the `Host` record (the Go
methods receive a pointer to it), the count of `GetState` calls made so
far, and the log of outward calls. -/
structure W where
  host : Host
  k : Nat
  log : List Ev

/-- Append one call event to the world's log. -/
def W.logEv (w : W) (e : Ev) : W :=
  { w with log := w.log ++ [e] }

/-- One `GetState()` call against the backend: returns the scripted
answer for the current call index and advances the world. -/
def W.stepGetState (w : W) : Except String S × W :=
  (w.host.Driver.getState w.k,
    { w with k := w.k + 1, log := w.log ++ [Ev.getState] })

/-- Modelled from the spec: `drivers.MachineInState(d, desired)()` — the
transition-guard / poll predicate.  It queries the current state once
and reports whether it equals the desired state; a failing state query
counts as not-in-state (non-convergence), it is not raised. -/
def machineInState (desired : S) (w : W) : Bool × W :=
  let p := w.stepGetState
  (match p.1 with
    | .ok s => s == desired
    | .error _ => false, p.2)

/-- The poller's fixed attempt budget (a configuration constant of the
external poll utility). -/
def maxAttempts : Nat := 60

/-- Modelled from the spec: the bounded retry loop inside
`mcnutils.WaitFor` — evaluate the machine-in-state predicate until it
returns true or the budget is exhausted, in which case the poller fails
with the `Timeout` error. -/
def waitForAttempts (desired : S) : Nat → W → Except Err Unit × W
  | 0, w => (.error .timeout, w)
  | n + 1, w =>
    let p := machineInState desired w
    if p.1 then (.ok (), p.2) else waitForAttempts desired n p.2

/-- Modelled from the spec: `mcnutils.WaitFor(drivers.MachineInState(d, desired))`,
the confirmation poll with the fixed budget. -/
def waitFor (desired : S) (w : W) : Except Err Unit × W :=
  waitForAttempts desired maxAttempts w

/-- Modelled from the spec: `strings.ToLower` on the (ASCII) state
names, character-wise lowercasing. -/
def strToLower (s : String) : String := ⟨s.data.map Char.toLower⟩

/-- The guard error message `fmt.Errorf("Machine %q is already %s.", h.Name,
strings.ToLower(desiredState.String()))`. -/
def alreadyErrMsg (name : String) (desired : S) : String :=
  "Machine \"" ++ name ++ "\" is already " ++ strToLower (S.str desired) ++ "."

/-- `(h *Host) runActionForState(action, desiredState)`: guard, then the
mechanical action, then the confirmation poll.  The action is given by
the event it logs and the scripted result it returns. -/
def runActionForState (actEv : Ev) (actR : Option String) (desired : S)
    (w : W) : Except Err Unit × W :=
  let p := machineInState desired w
  if p.1 then
    (.error (.mkError (alreadyErrMsg w.host.Name desired)), p.2)
  else
    let w1 := p.2.logEv actEv
    match actR with
    | some e => (.error (.backend e), w1)
    | none => waitFor desired w1

/-- `(h *Host) Start()`. -/
def Start (w : W) : Except Err Unit × W :=
  runActionForState Ev.start w.host.Driver.startR S.Running w

/-- `(h *Host) Stop()`. -/
def Stop (w : W) : Except Err Unit × W :=
  runActionForState Ev.stop w.host.Driver.stopR S.Stopped w

/-- `(h *Host) Kill()`. -/
def Kill (w : W) : Except Err Unit × W :=
  runActionForState Ev.kill w.host.Driver.killR S.Stopped w

/-- `(h *Host) Restart()`. -/
def Restart (w : W) : Except Err Unit × W :=
  let p := machineInState S.Running w
  let phase1 : Except Err Unit × W :=
    if p.1 then
      match Stop p.2 with
      | (.error e, w1) => (.error e, w1)
      | (.ok _, w1) => waitFor S.Stopped w1
    else (.ok (), p.2)
  match phase1 with
  | (.error e, w1) => (.error e, w1)
  | (.ok _, w1) =>
    match Start w1 with
    | (.error e, w2) => (.error e, w2)
    | (.ok _, w2) =>
      match waitFor S.Running w2 with
      | (.error e, w3) => (.error e, w3)
      | (.ok _, w3) => (.ok (), w3)

/-- `errMachineMustBeRunningForUpgrade`. -/
def errMachineMustBeRunningForUpgrade : Err :=
  .mkError "Error: machine must be running to upgrade."

/-- `(h *Host) Upgrade()`: state precondition, provisioner detection,
package upgrade, then service restart. -/
def Upgrade (w : W) : Except Err Unit × W :=
  let p := w.stepGetState
  match p.1 with
  | .error e => (.error (.backend e), p.2)
  | .ok machineState =>
    if machineState ≠ S.Running then
      (.error errMachineMustBeRunningForUpgrade, p.2)
    else
      let w1 := p.2.logEv Ev.detect
      match w1.host.Driver.detectR with
      | some e => (.error (.backend e), w1)
      | none =>
        let w2 := w1.logEv (Ev.pkg "docker" PkgAction.Upgrade)
        match w2.host.Driver.packageR "docker" PkgAction.Upgrade with
        | some e => (.error (.backend e), w2)
        | none =>
          let w3 := w2.logEv (Ev.svc "docker" SvcAction.Restart)
          match w3.host.Driver.serviceR "docker" SvcAction.Restart with
          | some e => (.error (.backend e), w3)
          | none => (.ok (), w3)

/-- `(h *Host) ConfigureAuth()`: provisioner detection, then
`provisioner.Provision(swarm.Options\x7b\x7d, *h.HostOptions.AuthOptions,
*h.HostOptions.EngineOptions)`. -/
def ConfigureAuth (w : W) : Except Err Unit × W :=
  let w1 := w.logEv Ev.detect
  match w1.host.Driver.detectR with
  | some e => (.error (.backend e), w1)
  | none =>
    let sw := SwarmOpts.zero
    let au := w1.host.HostOptions.AuthOptions
    let en := w1.host.HostOptions.EngineOptions
    let w2 := w1.logEv (Ev.provision sw au en)
    match w2.host.Driver.provisionR sw au en with
    | some e => (.error (.backend e), w2)
    | none => (.ok (), w2)

/-- The SSH session handle built by `ssh.NewClient(username, addr, port,
auth)`; modelled from the spec as the record of its construction
arguments (`auth` carries the single key path). -/
structure SSHClient where
  user : String
  hostname : String
  port : Int
  keys : List String
  deriving DecidableEq, Repr

/-- `(h *Host) CreateSSHClient()`: hostname query, then port query, then
the session handle from hostname, port, username and key path. -/
def CreateSSHClient (w : W) : Except Err SSHClient × W :=
  let w1 := w.logEv Ev.sshHostname
  match w1.host.Driver.sshHostname with
  | .error e => (.error (.backend e), w1)
  | .ok addr =>
    let w2 := w1.logEv Ev.sshPort
    match w2.host.Driver.sshPort with
    | .error e => (.error (.backend e), w2)
    | .ok port =>
      (.ok { user := w2.host.Driver.sshUsername, hostname := addr,
             port := port, keys := [w2.host.Driver.sshKeyPath] }, w2)

/-- First-character class of the anchored Go regexp
`^[a-zA-Z0-9][a-zA-Z0-9\-\.]*$` (`validHostNameChars`). -/
def isHostNameFirstChar (c : Char) : Bool :=
  (('a' ≤ c && c ≤ 'z') || ('A' ≤ c && c ≤ 'Z') || ('0' ≤ c && c ≤ '9'))

/-- Tail-character class of the anchored Go regexp: alphanumeric, hyphen
or dot. -/
def isHostNameRestChar (c : Char) : Bool :=
  isHostNameFirstChar c || c == '-' || c == '.'

/-- Whole-string match of the anchored regexp `validHostNamePattern`:
one first-class character followed by tail-class characters. -/
def matchesValidHostNameChars : List Char → Bool
  | [] => false
  | c :: cs => isHostNameFirstChar c && cs.all isHostNameRestChar

/-- `ValidateHostName(name)`. -/
def ValidateHostName (name : String) : Bool :=
  matchesValidHostNameChars name.data

/-! ### Spec-side predicate for machine-name validation -/

/-- Spec wording: an alphanumeric character (a-z, A-Z, 0-9). -/
def specAlnum (c : Char) : Prop :=
  ('a' ≤ c ∧ c ≤ 'z') ∨ ('A' ≤ c ∧ c ≤ 'Z') ∨ ('0' ≤ c ∧ c ≤ '9')

/-- Spec wording: an alphanumeric, a hyphen, or a dot. -/
def specNameChar (c : Char) : Prop :=
  specAlnum c ∨ c = '-' ∨ c = '.'

/-- Spec wording: the name starts with an alphanumeric character,
followed by zero or more characters each of which is an alphanumeric, a
hyphen, or a dot. -/
def specValidHostName (s : String) : Prop :=
  ∃ c cs, s.data = c :: cs ∧ specAlnum c ∧ ∀ x ∈ cs, specNameChar x

/-! ### Sample fixtures used by witnesses and counterexamples -/

/-- A benign driver script: state always `None`, every call succeeds. -/
def baseDriver : Driver :=
  { getState := fun _ => .ok S.None
    startR := none
    stopR := none
    killR := none
    sshHostname := .ok "192.168.99.100"
    sshPort := .ok 22
    sshUsername := "docker"
    sshKeyPath := "/home/user/.docker/machine/id_rsa"
    detectR := none
    packageR := fun _ _ => none
    serviceR := fun _ _ => none
    provisionR := fun _ _ _ => none }

/-- Sample options bundle. -/
def opts0 : Options :=
  { Driver := "virtualbox"
    Memory := 1024
    Disk := 20000
    EngineOptions := ⟨["engine-opt"]⟩
    SwarmOptions := ⟨["swarm-opt"]⟩
    AuthOptions := ⟨["auth-opt"]⟩ }

/-- Sample host named `default` over the given driver script. -/
def mkHost (d : Driver) : Host :=
  { ConfigVersion := 3
    Driver := d
    DriverName := "virtualbox"
    HostOptions := opts0
    Name := "default"
    RawDriver := [] }

/-- Fresh world over the given driver script. -/
def mkW (d : Driver) : W :=
  { host := mkHost d, k := 0, log := [] }

/-! ### Basic lemmas about the embedding -/

theorem strToLower_Running : strToLower (S.str S.Running) = "running" := rfl

theorem strToLower_Stopped : strToLower (S.str S.Stopped) = "stopped" := rfl

theorem alreadyErrMsg_running (n : String) :
    alreadyErrMsg n S.Running = "Machine \"" ++ n ++ "\" is already running." := by
  show ((("Machine \"" ++ n) ++ "\" is already ") ++ strToLower (S.str S.Running)) ++ "." =
      ("Machine \"" ++ n) ++ "\" is already running."
  rw [String.append_assoc ("Machine \"" ++ n) "\" is already " (strToLower (S.str S.Running)),
    String.append_assoc ("Machine \"" ++ n)]
  rfl

theorem alreadyErrMsg_stopped (n : String) :
    alreadyErrMsg n S.Stopped = "Machine \"" ++ n ++ "\" is already stopped." := by
  show ((("Machine \"" ++ n) ++ "\" is already ") ++ strToLower (S.str S.Stopped)) ++ "." =
      ("Machine \"" ++ n) ++ "\" is already stopped."
  rw [String.append_assoc ("Machine \"" ++ n) "\" is already " (strToLower (S.str S.Stopped)),
    String.append_assoc ("Machine \"" ++ n)]
  rfl

/-- Guard fires: the observed state equals the target, so
`runActionForState` fails with the already-in-state error after the
single guard query, logging no further call. -/
theorem runActionForState_already (actEv : Ev) (actR : Option String) (desired : S)
    (w : W) (h : w.host.Driver.getState w.k = .ok desired) :
    runActionForState actEv actR desired w =
      (.error (.mkError (alreadyErrMsg w.host.Name desired)),
        { w with k := w.k + 1, log := w.log ++ [Ev.getState] }) := by
  simp [runActionForState, machineInState, W.stepGetState, h]

/-- Guard passes and the mechanical action fails: the operation returns
the action's error verbatim and performs no confirmation poll. -/
theorem runActionForState_actionErr (actEv : Ev) (actR : Option String) (desired : S)
    (w : W) (s : S) (e : String)
    (hq : w.host.Driver.getState w.k = .ok s) (hs : s ≠ desired) (ha : actR = some e) :
    runActionForState actEv actR desired w =
      (.error (.backend e),
        { w with k := w.k + 1, log := w.log ++ [Ev.getState, actEv] }) := by
  simp [runActionForState, machineInState, W.stepGetState, W.logEv, hq, hs, ha]

/-- Guard passes and the mechanical action succeeds: the operation is
the confirmation poll run after the guard query and the action, in that
order. -/
theorem runActionForState_actionOk (actEv : Ev) (actR : Option String) (desired : S)
    (w : W) (s : S)
    (hq : w.host.Driver.getState w.k = .ok s) (hs : s ≠ desired) (ha : actR = none) :
    runActionForState actEv actR desired w =
      waitFor desired { w with k := w.k + 1, log := w.log ++ [Ev.getState, actEv] } := by
  simp [runActionForState, machineInState, W.stepGetState, W.logEv, hq, hs, ha]

/-! ### Claim C1 -/

/-- Claim C1: for every machine whose currently observed state already
equals the target state of the requested operation, `Start` (target
Running), `Stop` (target Stopped) and `Kill` (target Stopped) each fail
with the already-in-state error `Machine "<name>" is already <state>.`,
and the run log gains only the single guard state query: no mechanical
action is invoked on the backend and no confirmation polling occurs. -/
theorem c1_start_stop_kill_already_in_state (w : W) :
    (w.host.Driver.getState w.k = .ok S.Running →
      Start w =
        (.error (.mkError ("Machine \"" ++ w.host.Name ++ "\" is already running.")),
          { w with k := w.k + 1, log := w.log ++ [Ev.getState] })) ∧
    (w.host.Driver.getState w.k = .ok S.Stopped →
      Stop w =
        (.error (.mkError ("Machine \"" ++ w.host.Name ++ "\" is already stopped.")),
          { w with k := w.k + 1, log := w.log ++ [Ev.getState] })) ∧
    (w.host.Driver.getState w.k = .ok S.Stopped →
      Kill w =
        (.error (.mkError ("Machine \"" ++ w.host.Name ++ "\" is already stopped.")),
          { w with k := w.k + 1, log := w.log ++ [Ev.getState] })) := by
  refine ⟨fun h => ?_, fun h => ?_, fun h => ?_⟩
  · rw [Start, runActionForState_already _ _ _ _ h, alreadyErrMsg_running]
  · rw [Stop, runActionForState_already _ _ _ _ h, alreadyErrMsg_stopped]
  · rw [Kill, runActionForState_already _ _ _ _ h, alreadyErrMsg_stopped]

/-- Driver script that always reports `Running`. -/
def dRunning : Driver := { baseDriver with getState := fun _ => .ok S.Running }

/-- Driver script that always reports `Stopped`. -/
def dStopped : Driver := { baseDriver with getState := fun _ => .ok S.Stopped }

/-- Witness for C1 at a concrete running machine and a concrete stopped
machine. -/
theorem c1_start_stop_kill_already_in_state_witness :
    Start (mkW dRunning) =
      (.error (.mkError "Machine \"default\" is already running."),
        { mkW dRunning with k := 1, log := [Ev.getState] }) ∧
    Stop (mkW dStopped) =
      (.error (.mkError "Machine \"default\" is already stopped."),
        { mkW dStopped with k := 1, log := [Ev.getState] }) ∧
    Kill (mkW dStopped) =
      (.error (.mkError "Machine \"default\" is already stopped."),
        { mkW dStopped with k := 1, log := [Ev.getState] }) :=
  ⟨(c1_start_stop_kill_already_in_state (mkW dRunning)).1 rfl,
    (c1_start_stop_kill_already_in_state (mkW dStopped)).2.1 rfl,
    (c1_start_stop_kill_already_in_state (mkW dStopped)).2.2 rfl⟩

/-! ### Claim C5 -/

/-- Claim C5: within `Start`, `Stop` and `Kill` the guard query strictly
precedes the mechanical action, which strictly precedes confirmation
polling.  When the guard passes (observed state differs from the
target) and the action fails, the operation returns exactly that error
and the log ends with the action: no poll is attempted.  When the
action succeeds, the operation continues as the confirmation poll on
the world whose log already holds the guard query followed by the
action. -/
theorem c5_guard_action_poll_order (w : W) (s : S) (e : String)
    (hq : w.host.Driver.getState w.k = .ok s) :
    (s ≠ S.Running → w.host.Driver.startR = some e →
      Start w = (.error (.backend e),
        { w with k := w.k + 1, log := w.log ++ [Ev.getState, Ev.start] })) ∧
    (s ≠ S.Stopped → w.host.Driver.stopR = some e →
      Stop w = (.error (.backend e),
        { w with k := w.k + 1, log := w.log ++ [Ev.getState, Ev.stop] })) ∧
    (s ≠ S.Stopped → w.host.Driver.killR = some e →
      Kill w = (.error (.backend e),
        { w with k := w.k + 1, log := w.log ++ [Ev.getState, Ev.kill] })) ∧
    (s ≠ S.Running → w.host.Driver.startR = none →
      Start w = waitFor S.Running
        { w with k := w.k + 1, log := w.log ++ [Ev.getState, Ev.start] }) ∧
    (s ≠ S.Stopped → w.host.Driver.stopR = none →
      Stop w = waitFor S.Stopped
        { w with k := w.k + 1, log := w.log ++ [Ev.getState, Ev.stop] }) ∧
    (s ≠ S.Stopped → w.host.Driver.killR = none →
      Kill w = waitFor S.Stopped
        { w with k := w.k + 1, log := w.log ++ [Ev.getState, Ev.kill] }) := by
  refine ⟨fun hs ha => ?_, fun hs ha => ?_, fun hs ha => ?_,
    fun hs ha => ?_, fun hs ha => ?_, fun hs ha => ?_⟩
  · rw [Start, runActionForState_actionErr _ _ _ _ _ _ hq hs ha]
  · rw [Stop, runActionForState_actionErr _ _ _ _ _ _ hq hs ha]
  · rw [Kill, runActionForState_actionErr _ _ _ _ _ _ hq hs ha]
  · rw [Start, runActionForState_actionOk _ _ _ _ _ hq hs ha]
  · rw [Stop, runActionForState_actionOk _ _ _ _ _ hq hs ha]
  · rw [Kill, runActionForState_actionOk _ _ _ _ _ hq hs ha]

/-- Driver script reporting the `Error` state whose mechanical actions
all fail. -/
def dErrorActsFail : Driver :=
  { baseDriver with
    getState := fun _ => .ok S.Error
    startR := some "backend action failed"
    stopR := some "backend action failed"
    killR := some "backend action failed" }

/-- Driver script reporting the `Error` state whose mechanical actions
all succeed. -/
def dErrorActsOk : Driver := { baseDriver with getState := fun _ => .ok S.Error }

/-- Witness for C5 at a machine observed in the `Error` state (the
spec's scenario), once with failing actions and once with succeeding
actions. -/
theorem c5_guard_action_poll_order_witness :
    (Start (mkW dErrorActsFail) = (.error (.backend "backend action failed"),
      { mkW dErrorActsFail with k := 1, log := [Ev.getState, Ev.start] })) ∧
    (Stop (mkW dErrorActsFail) = (.error (.backend "backend action failed"),
      { mkW dErrorActsFail with k := 1, log := [Ev.getState, Ev.stop] })) ∧
    (Kill (mkW dErrorActsFail) = (.error (.backend "backend action failed"),
      { mkW dErrorActsFail with k := 1, log := [Ev.getState, Ev.kill] })) ∧
    (Stop (mkW dErrorActsOk) = waitFor S.Stopped
      { mkW dErrorActsOk with k := 1, log := [Ev.getState, Ev.stop] }) :=
  ⟨(c5_guard_action_poll_order (mkW dErrorActsFail) S.Error "backend action failed" rfl).1
      (by decide) rfl,
    (c5_guard_action_poll_order (mkW dErrorActsFail) S.Error "backend action failed" rfl).2.1
      (by decide) rfl,
    (c5_guard_action_poll_order (mkW dErrorActsFail) S.Error "backend action failed" rfl).2.2.1
      (by decide) rfl,
    (c5_guard_action_poll_order (mkW dErrorActsOk) S.Error "unused" rfl).2.2.2.2.1
      (by decide) rfl⟩

/-! ### Claims C3, C4, C10 — Upgrade -/

/-- Claim C3: on a machine whose queried state is not `Running`,
`Upgrade` fails with the error
`Error: machine must be running to upgrade.` and the run log gains only
the state query: neither the provisioner's `Package` action nor its
`Service` action is invoked (nor even provisioner detection). -/
theorem c3_upgrade_not_running (w : W) (s : S)
    (hq : w.host.Driver.getState w.k = .ok s) (hs : s ≠ S.Running) :
    Upgrade w = (.error (.mkError "Error: machine must be running to upgrade."),
      { w with k := w.k + 1, log := w.log ++ [Ev.getState] }) := by
  simp [Upgrade, W.stepGetState, hq, hs, errMachineMustBeRunningForUpgrade]

/-- Witness for C3 at a concrete stopped machine. -/
theorem c3_upgrade_not_running_witness :
    Upgrade (mkW dStopped) =
      (.error (.mkError "Error: machine must be running to upgrade."),
        { mkW dStopped with k := 1, log := [Ev.getState] }) :=
  c3_upgrade_not_running (mkW dStopped) S.Stopped rfl (by decide)

/-- Claim C10: if the state query performed by `Upgrade` itself fails,
`Upgrade` returns exactly that query error — a backend error, never the
must-be-running error — and the log gains only the state query: no
provisioner detection, no `Package` action and no `Service` action. -/
theorem c10_upgrade_state_query_error (w : W) (e : String)
    (hq : w.host.Driver.getState w.k = .error e) :
    Upgrade w = (.error (.backend e),
        { w with k := w.k + 1, log := w.log ++ [Ev.getState] }) ∧
    Err.backend e ≠ errMachineMustBeRunningForUpgrade := by
  refine ⟨?_, by simp [errMachineMustBeRunningForUpgrade]⟩
  simp [Upgrade, W.stepGetState, hq]

/-- Driver script whose state query always fails. -/
def dStateQueryFails : Driver :=
  { baseDriver with getState := fun _ => .error "state query failed" }

/-- Witness for C10 at a concrete machine whose state query fails. -/
theorem c10_upgrade_state_query_error_witness :
    Upgrade (mkW dStateQueryFails) =
      (.error (.backend "state query failed"),
        { mkW dStateQueryFails with k := 1, log := [Ev.getState] }) ∧
    Err.backend "state query failed" ≠ errMachineMustBeRunningForUpgrade :=
  c10_upgrade_state_query_error (mkW dStateQueryFails) "state query failed" rfl

/-- Claim C4: on a machine queried as `Running` with successful
provisioner detection, `Upgrade` invokes the provisioner's `Package`
upgrade for `docker` strictly before the `Service` restart for
`docker`; if the `Package` step fails, `Upgrade` aborts with that
step's error and the `Service` action is never invoked; if both steps
succeed, the log ends detection, package, service, in that order. -/
theorem c4_upgrade_package_before_service (w : W) (e : String)
    (hq : w.host.Driver.getState w.k = .ok S.Running)
    (hd : w.host.Driver.detectR = none) :
    (w.host.Driver.packageR "docker" PkgAction.Upgrade = some e →
      Upgrade w = (.error (.backend e),
        { w with
          k := w.k + 1
          log := w.log ++ [Ev.getState, Ev.detect, Ev.pkg "docker" PkgAction.Upgrade] })) ∧
    (w.host.Driver.packageR "docker" PkgAction.Upgrade = none →
      w.host.Driver.serviceR "docker" SvcAction.Restart = some e →
      Upgrade w = (.error (.backend e),
        { w with
          k := w.k + 1
          log := w.log ++ [Ev.getState, Ev.detect, Ev.pkg "docker" PkgAction.Upgrade,
            Ev.svc "docker" SvcAction.Restart] })) ∧
    (w.host.Driver.packageR "docker" PkgAction.Upgrade = none →
      w.host.Driver.serviceR "docker" SvcAction.Restart = none →
      Upgrade w = (.ok (),
        { w with
          k := w.k + 1
          log := w.log ++ [Ev.getState, Ev.detect, Ev.pkg "docker" PkgAction.Upgrade,
            Ev.svc "docker" SvcAction.Restart] })) := by
  refine ⟨fun hp => ?_, fun hp hsvc => ?_, fun hp hsvc => ?_⟩ <;>
    simp [Upgrade, W.stepGetState, W.logEv, hq, hd, hp, *]

/-- Driver script for a running machine whose package upgrade fails. -/
def dRunningPkgFails : Driver :=
  { baseDriver with
    getState := fun _ => .ok S.Running
    packageR := fun _ _ => some "package upgrade failed" }

/-- Witness for C4: package failure aborts before the service step, and
the fully successful upgrade logs package strictly before service. -/
theorem c4_upgrade_package_before_service_witness :
    (Upgrade (mkW dRunningPkgFails) = (.error (.backend "package upgrade failed"),
      { mkW dRunningPkgFails with
        k := 1
        log := [Ev.getState, Ev.detect, Ev.pkg "docker" PkgAction.Upgrade] })) ∧
    (Upgrade (mkW dRunning) = (.ok (),
      { mkW dRunning with
        k := 1
        log := [Ev.getState, Ev.detect, Ev.pkg "docker" PkgAction.Upgrade,
          Ev.svc "docker" SvcAction.Restart] })) :=
  ⟨(c4_upgrade_package_before_service (mkW dRunningPkgFails) "package upgrade failed"
      rfl rfl).1 rfl,
    (c4_upgrade_package_before_service (mkW dRunning) "unused" rfl rfl).2.2 rfl rfl⟩

/-! ### Claim C7 — ConfigureAuth -/

/-- Claim C7: `ConfigureAuth` first detects the provisioner and then
invokes its `Provision` entry point with the empty clustering options
together with the machine's real auth options and real engine options;
a detection error propagates unchanged (and `Provision` is never
invoked), a provisioning error propagates unchanged, and
`ConfigureAuth` succeeds exactly when both steps succeed. -/
theorem c7_configure_auth_reprovisions (w : W) (e : String) :
    (w.host.Driver.detectR = some e →
      ConfigureAuth w = (.error (.backend e),
        { w with log := w.log ++ [Ev.detect] })) ∧
    (w.host.Driver.detectR = none →
      w.host.Driver.provisionR SwarmOpts.zero w.host.HostOptions.AuthOptions
          w.host.HostOptions.EngineOptions = some e →
      ConfigureAuth w = (.error (.backend e),
        { w with log := w.log ++ [Ev.detect,
          Ev.provision SwarmOpts.zero w.host.HostOptions.AuthOptions
            w.host.HostOptions.EngineOptions] })) ∧
    (w.host.Driver.detectR = none →
      w.host.Driver.provisionR SwarmOpts.zero w.host.HostOptions.AuthOptions
          w.host.HostOptions.EngineOptions = none →
      ConfigureAuth w = (.ok (),
        { w with log := w.log ++ [Ev.detect,
          Ev.provision SwarmOpts.zero w.host.HostOptions.AuthOptions
            w.host.HostOptions.EngineOptions] })) := by
  refine ⟨fun hd => ?_, fun hd hp => ?_, fun hd hp => ?_⟩ <;>
    simp [ConfigureAuth, W.logEv, hd, *]

/-- Driver script whose provisioner detection fails. -/
def dDetectFails : Driver :=
  { baseDriver with detectR := some "no provisioner found" }

/-- Driver script whose provisioning call fails. -/
def dProvisionFails : Driver :=
  { baseDriver with provisionR := fun _ _ _ => some "provisioning failed" }

/-- Witness for C7: a failing detection, a failing provisioning call,
and a fully successful re-provisioning, each at a concrete machine. -/
theorem c7_configure_auth_reprovisions_witness :
    (ConfigureAuth (mkW dDetectFails) = (.error (.backend "no provisioner found"),
      { mkW dDetectFails with log := [Ev.detect] })) ∧
    (ConfigureAuth (mkW dProvisionFails) = (.error (.backend "provisioning failed"),
      { mkW dProvisionFails with
        log := [Ev.detect, Ev.provision SwarmOpts.zero opts0.AuthOptions
          opts0.EngineOptions] })) ∧
    (ConfigureAuth (mkW baseDriver) = (.ok (),
      { mkW baseDriver with
        log := [Ev.detect, Ev.provision SwarmOpts.zero opts0.AuthOptions
          opts0.EngineOptions] })) :=
  ⟨(c7_configure_auth_reprovisions (mkW dDetectFails) "no provisioner found").1 rfl,
    (c7_configure_auth_reprovisions (mkW dProvisionFails) "provisioning failed").2.1 rfl rfl,
    (c7_configure_auth_reprovisions (mkW baseDriver) "unused").2.2 rfl rfl⟩

/-! ### Claim C8 — CreateSSHClient -/

/-- Claim C8: `CreateSSHClient` queries the SSH hostname strictly
before the SSH port; a hostname error is returned as-is and the port is
never queried; after a successful hostname query a port error is
returned as-is; when both succeed the session handle is built from the
backend-reported hostname, port, username and key path. -/
theorem c8_create_ssh_client_order (w : W) (e a : String) (p : Int) :
    (w.host.Driver.sshHostname = .error e →
      CreateSSHClient w = (.error (.backend e),
        { w with log := w.log ++ [Ev.sshHostname] })) ∧
    (w.host.Driver.sshHostname = .ok a → w.host.Driver.sshPort = .error e →
      CreateSSHClient w = (.error (.backend e),
        { w with log := w.log ++ [Ev.sshHostname, Ev.sshPort] })) ∧
    (w.host.Driver.sshHostname = .ok a → w.host.Driver.sshPort = .ok p →
      CreateSSHClient w = (.ok
        { user := w.host.Driver.sshUsername
          hostname := a
          port := p
          keys := [w.host.Driver.sshKeyPath] },
        { w with log := w.log ++ [Ev.sshHostname, Ev.sshPort] })) := by
  refine ⟨fun hh => ?_, fun hh hp => ?_, fun hh hp => ?_⟩ <;>
    simp [CreateSSHClient, W.logEv, hh, *]

/-- Driver script whose SSH hostname query fails. -/
def dSSHHostnameFails : Driver :=
  { baseDriver with sshHostname := .error "hostname unavailable" }

/-- Driver script whose SSH port query fails. -/
def dSSHPortFails : Driver :=
  { baseDriver with sshPort := .error "port unavailable" }

/-- Witness for C8: hostname failure (port never queried), port
failure, and the successful construction of the handle, at concrete
machines. -/
theorem c8_create_ssh_client_order_witness :
    (CreateSSHClient (mkW dSSHHostnameFails) = (.error (.backend "hostname unavailable"),
      { mkW dSSHHostnameFails with log := [Ev.sshHostname] })) ∧
    (CreateSSHClient (mkW dSSHPortFails) = (.error (.backend "port unavailable"),
      { mkW dSSHPortFails with log := [Ev.sshHostname, Ev.sshPort] })) ∧
    (CreateSSHClient (mkW baseDriver) = (.ok
      { user := "docker"
        hostname := "192.168.99.100"
        port := 22
        keys := ["/home/user/.docker/machine/id_rsa"] },
      { mkW baseDriver with log := [Ev.sshHostname, Ev.sshPort] })) :=
  ⟨(c8_create_ssh_client_order (mkW dSSHHostnameFails) "hostname unavailable" "" 0).1 rfl,
    (c8_create_ssh_client_order (mkW dSSHPortFails) "port unavailable"
      "192.168.99.100" 0).2.1 rfl rfl,
    (c8_create_ssh_client_order (mkW baseDriver) "unused"
      "192.168.99.100" 22).2.2 rfl rfl⟩

/-! ### Claim C9 — machine-name validation -/

/-- Claim C9: `ValidateHostName` accepts a string exactly when it
starts with an alphanumeric character followed by zero or more
characters each of which is an alphanumeric, a hyphen, or a dot. -/
theorem c9_validate_host_name (s : String) :
    ValidateHostName s = true ↔ specValidHostName s := by
  unfold ValidateHostName specValidHostName
  rcases hd : s.data with _ | ⟨c, cs⟩
  · simp [matchesValidHostNameChars]
  · simp only [matchesValidHostNameChars, isHostNameFirstChar, isHostNameRestChar,
      specAlnum, specNameChar, List.all_eq_true, Bool.and_eq_true, Bool.or_eq_true,
      decide_eq_true_eq, beq_iff_eq, List.cons.injEq]
    constructor
    · rintro ⟨h1, h2⟩
      refine ⟨c, cs, ⟨rfl, rfl⟩, by tauto, fun x hx => ?_⟩
      have := h2 x hx
      tauto
    · rintro ⟨c1, cs1, ⟨rfl, rfl⟩, h1, h2⟩
      refine ⟨by tauto, fun x hx => ?_⟩
      have := h2 x hx
      tauto

/-! ### Frame and log lemmas -/

/-- The poll loop never touches the `Host` record. -/
theorem waitForAttempts_host (desired : S) (n : Nat) (w : W) :
    ((waitForAttempts desired n w).2).host = w.host := by
  induction n generalizing w with
  | zero => rfl
  | succ n ih =>
    simp only [waitForAttempts, machineInState, W.stepGetState]
    split
    · rfl
    · exact ih _

/-- The confirmation poll never touches the `Host` record. -/
theorem waitFor_host (desired : S) (w : W) :
    ((waitFor desired w).2).host = w.host :=
  waitForAttempts_host desired maxAttempts w

/-- The guarded dispatch never touches the `Host` record. -/
theorem runActionForState_host (actEv : Ev) (actR : Option String) (desired : S)
    (w : W) : ((runActionForState actEv actR desired w).2).host = w.host := by
  simp only [runActionForState, machineInState, W.stepGetState, W.logEv]
  split
  · rfl
  · split
    · rfl
    · exact waitFor_host _ _

/-- The poll loop appends only state-query events to the log. -/
theorem waitForAttempts_log (desired : S) (n : Nat) (w : W) :
    ∃ t, ((waitForAttempts desired n w).2).log = w.log ++ t ∧
      ∀ e ∈ t, e = Ev.getState := by
  induction n generalizing w with
  | zero => exact ⟨[], by simp [waitForAttempts], by simp⟩
  | succ n ih =>
    simp only [waitForAttempts, machineInState, W.stepGetState]
    split
    · exact ⟨[Ev.getState], rfl, by simp⟩
    · obtain ⟨t, ht, hmem⟩ :=
        ih { w with k := w.k + 1, log := w.log ++ [Ev.getState] }
      refine ⟨Ev.getState :: t, ?_, ?_⟩
      · rw [ht]
        simp
      · intro e he
        rcases List.mem_cons.mp he with h | h
        · exact h
        · exact hmem e h

/-- The guarded dispatch appends only state-query events and its own
action event to the log. -/
theorem runActionForState_log (actEv : Ev) (actR : Option String) (desired : S)
    (w : W) :
    ∃ t, ((runActionForState actEv actR desired w).2).log = w.log ++ t ∧
      ∀ e ∈ t, e = Ev.getState ∨ e = actEv := by
  simp only [runActionForState, machineInState, W.stepGetState, W.logEv]
  split
  · exact ⟨[Ev.getState], rfl, by simp⟩
  · split
    · refine ⟨[Ev.getState, actEv], by simp, by simp⟩
    · obtain ⟨t, ht, hmem⟩ := waitForAttempts_log desired maxAttempts
        { w with k := w.k + 1, log := w.log ++ [Ev.getState] ++ [actEv] }
      refine ⟨Ev.getState :: actEv :: t, ?_, ?_⟩
      · rw [show waitFor desired
            { w with k := w.k + 1, log := w.log ++ [Ev.getState] ++ [actEv] } =
            waitForAttempts desired maxAttempts
            { w with k := w.k + 1, log := w.log ++ [Ev.getState] ++ [actEv] } from rfl, ht]
        simp
      · intro e he
        rcases List.mem_cons.mp he with h | h
        · exact Or.inl h
        · rcases List.mem_cons.mp h with h2 | h2
          · exact Or.inr h2
          · exact Or.inl (hmem e h2)

/-- Early-return composition: a step whose world keeps the host,
followed on success by a continuation that keeps the host, keeps the
host. -/
theorem matchErr_host {h0 : Host} (a : Except Err Unit × W) (f : W → Except Err Unit × W)
    (ha : a.2.host = h0) (hf : ∀ v : W, ((f v).2).host = v.host) :
    ((match a with
      | (.error e, w1) => ((.error e : Except Err Unit), w1)
      | (.ok _, w1) => f w1).2).host = h0 := by
  rcases a with ⟨r, w1⟩
  cases r
  · exact ha
  · rw [hf w1]
    exact ha

/-- `Restart` never touches the `Host` record. -/
theorem Restart_host (w : W) : ((Restart w).2).host = w.host := by
  refine matchErr_host _ _ ?_ fun v =>
    matchErr_host _ _ (runActionForState_host _ _ _ v) fun v2 =>
      matchErr_host _ _ (waitFor_host _ v2) fun _ => rfl
  split
  · exact matchErr_host _ _ (runActionForState_host _ _ _ _) fun v => waitFor_host _ v
  · rfl

/-- `Upgrade` never touches the `Host` record. -/
theorem Upgrade_host (w : W) : ((Upgrade w).2).host = w.host := by
  simp only [Upgrade, W.stepGetState, W.logEv]
  split
  · rfl
  · split
    · rfl
    · split
      · rfl
      · split
        · rfl
        · split <;> rfl

/-- `ConfigureAuth` never touches the `Host` record. -/
theorem ConfigureAuth_host (w : W) : ((ConfigureAuth w).2).host = w.host := by
  simp only [ConfigureAuth, W.logEv]
  split
  · rfl
  · split <;> rfl

/-! ### Claim C6 — frame: no operation mutates the Machine -/

/-- Claim C6: no orchestrator operation (`Start`, `Stop`, `Kill`,
`Restart`, `Upgrade`, `ConfigureAuth`) mutates the `Host` record: every
field — name, config version, driver name, options, driver reference —
holds the same value after the operation as before it; the lifecycle
state lives only behind the backend's state query, never on the
`Host`. -/
theorem c6_operations_preserve_host (w : W) :
    ((Start w).2).host = w.host ∧
    ((Stop w).2).host = w.host ∧
    ((Kill w).2).host = w.host ∧
    ((Restart w).2).host = w.host ∧
    ((Upgrade w).2).host = w.host ∧
    ((ConfigureAuth w).2).host = w.host :=
  ⟨runActionForState_host _ _ _ w, runActionForState_host _ _ _ w,
    runActionForState_host _ _ _ w, Restart_host w, Upgrade_host w,
    ConfigureAuth_host w⟩

/-! ### Claim C2 — Restart and the already-stopped condition -/

/-- Driver script: observed `Running` at the first query, `Stopped`
from the second query on (the state flips between Restart's guard and
the stop phase's own guard). -/
def dRunningThenStopped : Driver :=
  { baseDriver with
    getState := fun n => if n = 0 then .ok S.Running else .ok S.Stopped }

/-- Counterexample to claim C2 as stated: at this machine Restart's
internal stop phase returns the already-stopped condition, and
`Restart` does NOT tolerate it — it fails with exactly that error and
never reaches the start phase (no start action is ever logged). -/
theorem c2_counterexample_restart_already_stopped :
    (Restart (mkW dRunningThenStopped)).1 =
      .error (.mkError "Machine \"default\" is already stopped.") ∧
    Ev.start ∉ ((Restart (mkW dRunningThenStopped)).2).log :=
  ⟨rfl, by decide⟩

/-- Claim C2 as amended: for every machine initially observed Running,
ANY error from Restart's internal stop phase — including the
already-stopped condition — propagates as Restart's own result, and
the start phase is never attempted (no start action joins the log). -/
theorem c2_amended_restart_propagates_stop_error (w : W) (e : Err) (w2 : W)
    (hg : w.host.Driver.getState w.k = .ok S.Running)
    (hstop : Stop { w with k := w.k + 1, log := w.log ++ [Ev.getState] } = (.error e, w2)) :
    Restart w = (.error e, w2) ∧ (Ev.start ∉ w.log → Ev.start ∉ w2.log) := by
  have hrw : machineInState S.Running w =
      (true, { w with k := w.k + 1, log := w.log ++ [Ev.getState] }) := by
    simp [machineInState, W.stepGetState, hg]
  constructor
  · simp only [Restart, hrw]
    rw [hstop]
    simp
  · intro hnot hmem
    obtain ⟨t, ht, htev⟩ : ∃ t,
        ((Stop { w with k := w.k + 1, log := w.log ++ [Ev.getState] }).2).log =
          ({ w with k := w.k + 1, log := w.log ++ [Ev.getState] } : W).log ++ t ∧
          ∀ e2 ∈ t, e2 = Ev.getState ∨ e2 = Ev.stop :=
      runActionForState_log Ev.stop _ S.Stopped _
    have hsnd : ((Stop { w with k := w.k + 1, log := w.log ++ [Ev.getState] }).2).log
        = w2.log := congrArg (fun x => x.2.log) hstop
    rw [hsnd] at ht
    rw [ht] at hmem
    simp only [List.mem_append, List.mem_singleton] at hmem
    rcases hmem with (hmem | hmem) | hmem
    · exact hnot hmem
    · exact absurd hmem (by decide)
    · rcases htev _ hmem with h | h <;> exact absurd h (by decide)

/-- Driver script observed `Running` whose stop action fails with an
ordinary backend error. -/
def dRunningStopFails : Driver :=
  { baseDriver with
    getState := fun _ => .ok S.Running
    stopR := some "stop failed" }

/-- Witness for the amended C2 at a concrete machine whose stop action
fails: Restart returns the stop error and its log holds no start
action. -/
theorem c2_amended_restart_propagates_stop_error_witness :
    Restart (mkW dRunningStopFails) =
      (.error (.backend "stop failed"),
        { mkW dRunningStopFails with
          k := 2
          log := [Ev.getState, Ev.getState, Ev.stop] }) ∧
    Ev.start ∉ ({ mkW dRunningStopFails with
      k := 2
      log := [Ev.getState, Ev.getState, Ev.stop] } : W).log :=
  ⟨(c2_amended_restart_propagates_stop_error (mkW dRunningStopFails)
      (.backend "stop failed") _ rfl rfl).1,
    (c2_amended_restart_propagates_stop_error (mkW dRunningStopFails)
      (.backend "stop failed") _ rfl rfl).2 (by decide)⟩

end host
